import Mathlib

/-!
Verification of the ETL ingestion/merge/checkpoint pipeline of the
`kasparro-backend` repository, as a shallow embedding of
`app/ingestion/pipeline.py`, `app/services/drift_detection.py` and the
data model of `app/db/models.py`.

Timestamps are modelled as `Nat` (Python `datetime` values form a total
order and the pipeline only compares them); database tables are
association lists keyed the way the corresponding SQL constraints key
them; a fallible Python call is an `Except String` value carrying the
exception message (the pipeline branches on the message text, so the
message must be part of the model).
-/

namespace Etl

/-- `app/schemas/data.py` `UnifiedDataCreate`: the normalized record type of
the generic pipeline.  All fields except `external_id` are optional. -/
structure UnifiedDataCreate where
  external_id : String
  name : Option String
  timestamp : Option Nat
  value : Option String
  category : Option String
deriving DecidableEq, Repr

/-- `app/db/models.py` `EtlCheckpoint`: one row per `source_name`. -/
structure EtlCheckpoint where
  source_name : String
  last_ingested_timestamp : Option Nat
  last_status : String
  records_processed : Nat
  run_duration_ms : Nat
  error_log : Option String
deriving DecidableEq, Repr

/-- The durable store visible to the pipeline: the `unified_data` table
(rows keyed by `external_id`, per the upsert's `index_elements`) and the
`etl_checkpoints` table (rows keyed by `source_name`). -/
structure DbState where
  unified : List UnifiedDataCreate
  checkpoints : List EtlCheckpoint
deriving DecidableEq, Repr

/-- `get_checkpoint` (pipeline.py lines 32-36): select the checkpoint row
for a source, if any. -/
def get_checkpoint (cps : List EtlCheckpoint) (source_name : String) : Option EtlCheckpoint :=
  cps.find? (fun c => c.source_name = source_name)

/-- The field updates `update_checkpoint` performs on an existing row
(pipeline.py lines 46-51): all five mutable fields are overwritten,
including `last_ingested_timestamp`, which is set to the `last_ts`
argument even when that argument is `none`. -/
def setCp (cp : EtlCheckpoint) (status : String) (records duration : Nat)
    (error : Option String) (last_ts : Option Nat) : EtlCheckpoint :=
  { cp with
    last_status := status
    records_processed := records
    run_duration_ms := duration
    error_log := error
    last_ingested_timestamp := last_ts }

/-- `update_checkpoint` (pipeline.py lines 38-61): select-then-update if a
row for the source exists, else insert a fresh row. -/
def update_checkpoint (db : DbState) (source_name status : String) (records duration : Nat)
    (error : Option String) (last_ts : Option Nat) : DbState :=
  if db.checkpoints.any (fun c => c.source_name = source_name) then
    let upd := fun (c : EtlCheckpoint) =>
      if c.source_name = source_name then setCp c status records duration error last_ts else c
    { db with checkpoints := db.checkpoints.map upd }
  else
    let fresh : EtlCheckpoint := ⟨source_name, last_ts, status, records, duration, error⟩
    { db with checkpoints := db.checkpoints ++ [fresh] }

/-- The upsert of one normalized record into `unified_data`
(pipeline.py lines 214-230): `ON CONFLICT (external_id) DO UPDATE`
overwriting every other column. -/
def upsertUnified (t : List UnifiedDataCreate) (u : UnifiedDataCreate) :
    List UnifiedDataCreate :=
  if t.any (fun r => r.external_id = u.external_id) then
    t.map (fun r => if r.external_id = u.external_id then u else r)
  else t ++ [u]

/-- The load phase (pipeline.py lines 213-230): upsert each retained
record in order. -/
def loadAll (t : List UnifiedDataCreate) (recs : List UnifiedDataCreate) :
    List UnifiedDataCreate :=
  recs.foldl upsertUnified t

/-- Python `"CHAOS" in str(e)` (pipeline.py line 208): substring test on
the exception message, expressed as infix containment on the character
lists. -/
def str_contains (s pat : String) : Bool :=
  decide (pat.toList <:+: s.toList)

/-- The message of the fault-injection exception (pipeline.py line 201). -/
def chaosMsg : String := "CHAOS_MODE_TRIGGERED: Simulated failure mid-stream"

/-- The incremental filter condition (pipeline.py line 193):
`last_ingested and unified.timestamp and unified.timestamp <= last_ingested`.
A record is dropped exactly when both timestamps are present and the
record's timestamp is less than or equal to the high-water-mark. -/
def isFiltered (last_ingested : Option Nat) (ts : Option Nat) : Bool :=
  match last_ingested, ts with
  | some li, some t => t ≤ li
  | _, _ => false

/-- The running-maximum update (pipeline.py lines 203-205): only records
carrying a timestamp can advance `max_ts`. -/
def bumpMax (max_ts : Option Nat) (ts : Option Nat) : Option Nat :=
  match ts with
  | none => max_ts
  | some t =>
    match max_ts with
    | none => some t
    | some m => if t > m then some t else some m

/-- The mutable state of the transform-and-filter loop
(pipeline.py lines 173-177): retained records, count of accepted records,
running maximum timestamp. -/
structure LoopState where
  new_records : List UnifiedDataCreate
  processed_count : Nat
  max_ts : Option Nat
deriving DecidableEq, Repr

/-- One iteration of the transform-and-filter loop (pipeline.py lines
180-210) on the outcome of normalizing one raw record.  A normalization
error is caught and skipped unless its message contains `"CHAOS"`, in
which case it is re-raised (line 208).  An accepted record is appended
and counted; if fault injection is on and the accepted count exceeds
half of the fetched total (`processed_count > total_records / 2`, real
division, rendered here as `2 * count > total`), the chaos exception is
raised before `max_ts` is updated; otherwise `max_ts` is advanced. -/
def stepRecord (chaos : Bool) (total : Nat) (last_ingested : Option Nat)
    (st : LoopState) (rec : Except String UnifiedDataCreate) : Except String LoopState :=
  match rec with
  | Except.error e => if str_contains e "CHAOS" then Except.error e else Except.ok st
  | Except.ok u =>
    if isFiltered last_ingested u.timestamp then Except.ok st
    else
      let cnt := st.processed_count + 1
      if chaos ∧ 2 * cnt > total then Except.error chaosMsg
      else Except.ok
        { new_records := st.new_records ++ [u]
          processed_count := cnt
          max_ts := bumpMax st.max_ts u.timestamp }

/-- The whole transform-and-filter loop over the fetched batch. -/
def runLoop (chaos : Bool) (total : Nat) (last_ingested : Option Nat) :
    LoopState → List (Except String UnifiedDataCreate) → Except String LoopState
  | st, [] => Except.ok st
  | st, r :: rs =>
    match stepRecord chaos total last_ingested st r with
    | Except.error e => Except.error e
    | Except.ok st₁ => runLoop chaos total last_ingested st₁ rs

/-- Per-run configuration: the source being processed, the process-wide
fault-injection flag (`settings.CHAOS_MODE`), the measured wall-clock
duration (opaque to the logic), and two fault switches modelling a
persistence error at the data commit (pipeline.py line 232) and at the
checkpoint commit (line 239). -/
structure RunConfig where
  source_name : String
  chaos_mode : Bool
  duration_ms : Nat
  commit1_fails : Bool
  commit2_fails : Bool
deriving DecidableEq, Repr

/-- The checkpoint read at the start of a run (pipeline.py lines 164-165):
the stored high-water-mark is used only when the last run's status was
`"success"`. -/
def read_last_ingested (db : DbState) (source_name : String) : Option Nat :=
  match get_checkpoint db.checkpoints source_name with
  | some cp => if cp.last_status = "success" then cp.last_ingested_timestamp else none
  | none => none

/-- The failure path of a run (pipeline.py lines 247-253): roll back the
session (pending changes are discarded, so the store passed in here is
whatever was durably committed), record a failure checkpoint with zero
records, the captured error text, and no `last_ts`, then commit it. -/
def failPath (db : DbState) (cfg : RunConfig) (e : String) : DbState :=
  update_checkpoint db cfg.source_name "failure" 0 cfg.duration_ms (some e) none

/-- `process_source` (pipeline.py lines 158-253) as a function from the
durable store to the durable store.  `fetched` is the outcome of the
(retry-wrapped) fetch: an exception message on exhaustion, otherwise the
batch, each element being the outcome of normalizing that raw record.
The run reads the checkpoint, filters, loads, commits the data changes,
then writes and commits the success checkpoint in a second, separate
transaction; any exception leads to the failure path, with whatever the
run had already durably committed left in place. -/
def process_source (cfg : RunConfig)
    (fetched : Except String (List (Except String UnifiedDataCreate)))
    (db : DbState) : DbState :=
  let last_ingested := read_last_ingested db cfg.source_name
  match fetched with
  | Except.error e => failPath db cfg e
  | Except.ok raw_records =>
    match runLoop cfg.chaos_mode raw_records.length last_ingested
        ⟨[], 0, last_ingested⟩ raw_records with
    | Except.error e => failPath db cfg e
    | Except.ok st =>
      if cfg.commit1_fails then failPath db cfg "persistence error at data commit"
      else
        let db₁ : DbState := { db with unified := loadAll db.unified st.new_records }
        if cfg.commit2_fails then failPath db₁ cfg "persistence error at checkpoint commit"
        else update_checkpoint db₁ cfg.source_name "success" st.new_records.length
          cfg.duration_ms none st.max_ts

/-! ### Schema-drift detection (`app/services/drift_detection.py`) -/

/-- The critical crypto keys the detector looks for
(drift_detection.py line 24). -/
def critical_keys : List String := ["ticker", "symbol", "price", "price_usd", "quotes"]

/-- `detect_drift` (drift_detection.py lines 7-37), reduced to its one
observable effect: the boolean says whether the
`potential_schema_drift` warning is logged.  The code intersects the
payload's keys with `critical_keys` and warns exactly when the
intersection is empty; the trailing `if model:` block computes
`expected_keys` and then does nothing with it. -/
def detect_drift (incoming_keys : List String) : Bool :=
  (incoming_keys.filter (fun k => critical_keys.contains k)).isEmpty

/-- The drift check as the spec words it (§4.2(b)): the Jaccard
similarity `|intersection| / |union|` of the raw keys and the expected
schema keys, with a low-confidence warning logged exactly when the score
is below the 0.9 threshold.  Stated as a second definition to compare
with `detect_drift`, which is translated from the source. -/
def spec_jaccard_warns (raw expected : Finset String) : Prop :=
  (((raw ∩ expected).card : ℚ) / ((raw ∪ expected).card : ℚ)) < 9 / 10

instance (raw expected : Finset String) : Decidable (spec_jaccard_warns raw expected) := by
  unfold spec_jaccard_warns; infer_instance

/-! ### The CSV source's normalizer (`normalize_csv_record`) -/

/-- A row of the local CSV source as a dict: each expected key either
present with a value or absent. -/
structure CsvRow where
  external_id : Option String
  name : Option String
  val : Option String
  cat : Option String
deriving DecidableEq, Repr

/-- `normalize_csv_record` (pipeline.py lines 137-144): reads the four
required keys (a missing key raises `KeyError` and the record is
skipped by the per-record handler) and stamps the normalized record
with the current wall-clock time `now` — not with any timestamp carried
by the data. -/
def normalize_csv_record (now : Nat) (r : CsvRow) : Except String UnifiedDataCreate :=
  match r.external_id, r.name, r.val, r.cat with
  | some i, some n, some v, some c => Except.ok ⟨i, some n, some now, some v, some c⟩
  | _, _, _, _ => Except.error "KeyError"

/-! ### Multi-source unification (spec §4.4)

The crypto Unification Engine exercised by `tests/test_unification.py`
(price averaging into `sources_metadata`) is not present in the source
snapshot: `app/db/models.py` declares `CryptoMarketData` without the
`sources_metadata` column the test reads, and `pipeline.py`'s load phase
is a plain last-write-wins upsert.  The merge is therefore modelled from
the spec below. -/

/-- One source's contribution inside a unified entity's source-map. -/
structure SourceEntry where
  price : ℚ
  market_cap : Option ℚ
  volume_24h : Option ℚ
deriving DecidableEq, Repr

/-- A normalized crypto record (`app/schemas/crypto.py`
`CryptoUnifiedData`), prices as exact rationals. -/
structure NormalizedRecord where
  ticker : String
  price_usd : ℚ
  market_cap : Option ℚ
  volume_24h : Option ℚ
  source : String
  timestamp : Nat
deriving DecidableEq, Repr

/-- A unified entity row: one per `(ticker, timestamp)`, holding the
per-source map and the derived aggregates. -/
structure UnifiedEntity where
  ticker : String
  timestamp : Nat
  price_usd : ℚ
  market_cap : Option ℚ
  volume_24h : Option ℚ
  sources_metadata : List (String × SourceEntry)
deriving DecidableEq, Repr

/-- Write/overwrite one source's slot in a source-map (last-write-wins
per source, keys unique per source). -/
def upsertSourceEntry (m : List (String × SourceEntry)) (src : String) (e : SourceEntry) :
    List (String × SourceEntry) :=
  if m.any (fun p => p.1 = src) then
    m.map (fun p => if p.1 = src then (src, e) else p)
  else m ++ [(src, e)]

/-- The arithmetic mean of the `price` field across all sources
currently present in the map. -/
def mapMean (m : List (String × SourceEntry)) : ℚ :=
  (m.map (fun p => p.2.price)).sum / (m.length : ℚ)

/-- Modelled from the spec: the Unification Engine's `merge` (spec §4.4),
whose implementation is missing from the source snapshot (only
`tests/test_unification.py` and the partial `CryptoMarketData`
declaration remain).  Per the spec: if no entity exists for
`(ticker, timestamp)`, create one whose source-map holds exactly this
source's contribution and whose aggregate equals the record's raw value;
if one exists, overwrite this source's entry in the map, recompute the
aggregate as the arithmetic mean of `value` across all sources in the
map, and overwrite (not average) the secondary metrics with this
record's values. -/
def merge_record (tbl : List UnifiedEntity) (r : NormalizedRecord) : List UnifiedEntity :=
  let entry : SourceEntry := ⟨r.price_usd, r.market_cap, r.volume_24h⟩
  if tbl.any (fun en => en.ticker = r.ticker ∧ en.timestamp = r.timestamp) then
    let upd := fun (en : UnifiedEntity) =>
      if en.ticker = r.ticker ∧ en.timestamp = r.timestamp then
        let m := upsertSourceEntry en.sources_metadata r.source entry
        { en with
          sources_metadata := m
          price_usd := mapMean m
          market_cap := r.market_cap
          volume_24h := r.volume_24h }
      else en
    tbl.map upd
  else
    let fresh : UnifiedEntity :=
      ⟨r.ticker, r.timestamp, r.price_usd, r.market_cap, r.volume_24h, [(r.source, entry)]⟩
    tbl ++ [fresh]

/-- Ingesting a batch of normalized records into the unified store:
merge them in order. -/
def merge_all (tbl : List UnifiedEntity) (rs : List NormalizedRecord) : List UnifiedEntity :=
  rs.foldl merge_record tbl

/-- The reachable-checkpoint invariant: every checkpoint row carrying a
high-water-mark was written by a successful run, because the success
path passes `max_ts` and the failure path passes no `last_ts` at all
(pipeline.py lines 238 and 252). -/
def hwm_inv (db : DbState) : Prop :=
  ∀ cp ∈ db.checkpoints, cp.last_ingested_timestamp ≠ none → cp.last_status = "success"

/-! ### Concrete fixtures used to instantiate the theorems -/

/-- A fully populated normalized record with the given id and timestamp. -/
def mkRec (id : String) (ts : Nat) : UnifiedDataCreate :=
  ⟨id, some "n", some ts, some "v", some "c"⟩

/-- A fetched batch of 5 valid candidate records, as in
`tests/test_chaos.py`. -/
def chaosBatch : List (Except String UnifiedDataCreate) :=
  [Except.ok (mkRec "c1" 1), Except.ok (mkRec "c2" 2), Except.ok (mkRec "c3" 3),
   Except.ok (mkRec "c4" 4), Except.ok (mkRec "c5" 5)]

/-- The field names of `UnifiedDataCreate` (`model_fields`), the expected
schema the pipeline hands to the drift detector (pipeline.py line 188). -/
def unified_model_fields : List String :=
  ["external_id", "name", "timestamp", "value", "category"]

/-- The same expected schema as a set, for the spec's Jaccard wording. -/
def unified_model_fields_set : Finset String :=
  {"external_id", "name", "timestamp", "value", "category"}

/-! ### Lemmas about the checkpoint store -/

theorem find?_map_setCp (s status : String) (r d : Nat) (e : Option String) (ts : Option Nat) :
    ∀ (l : List EtlCheckpoint),
      (l.map (fun c => if c.source_name = s then setCp c status r d e ts else c)).find?
          (fun c => c.source_name = s) =
        (l.find? (fun c => c.source_name = s)).map (fun c => setCp c status r d e ts)
  | [] => rfl
  | c :: l => by
    by_cases h : c.source_name = s
    · simp [List.find?, h, setCp]
    · simp [List.find?, h, find?_map_setCp s status r d e ts l]

/-- Full characterization of the checkpoint row visible for source `s`
after `update_checkpoint` on that source: the existing row with all five
mutable fields overwritten, or a fresh row. -/
theorem get_checkpoint_update (db : DbState) (s status : String) (r d : Nat)
    (e : Option String) (ts : Option Nat) :
    get_checkpoint (update_checkpoint db s status r d e ts).checkpoints s =
      some (match get_checkpoint db.checkpoints s with
            | some cp => setCp cp status r d e ts
            | none => ⟨s, ts, status, r, d, e⟩) := by
  unfold update_checkpoint get_checkpoint
  by_cases h : db.checkpoints.any (fun c => c.source_name = s)
  · simp only [h, if_true]
    rw [find?_map_setCp]
    rcases hf : db.checkpoints.find? (fun c => decide (c.source_name = s)) with _ | cp
    · rw [List.any_eq_true] at h
      obtain ⟨c, hc, hcs⟩ := h
      rw [List.find?_eq_none] at hf
      exact absurd hcs (by simpa using hf c hc)
    · rw [hf]
      rfl
  · rw [Bool.not_eq_true] at h
    have hall := List.any_eq_false.mp h
    simp only [h, Bool.false_eq_true, if_false]
    have hnone : db.checkpoints.find? (fun c => decide (c.source_name = s)) = none := by
      rw [List.find?_eq_none]
      intro c hc
      simpa using hall c hc
    simp only [List.find?_append, hnone, Option.none_orElse]
    simp [List.find?]

/-- `update_checkpoint` writes only the checkpoint table. -/
theorem update_checkpoint_unified (db : DbState) (s status : String) (r d : Nat)
    (e : Option String) (ts : Option Nat) :
    (update_checkpoint db s status r d e ts).unified = db.unified := by
  unfold update_checkpoint
  by_cases h : db.checkpoints.any (fun c => c.source_name = s) <;> simp [h]

/-- A checkpoint update preserves the reachable-checkpoint invariant
whenever it records success or carries no high-water-mark — which is the
case on both of the pipeline's checkpoint writes. -/
theorem hwm_inv_update (db : DbState) (s status : String) (r d : Nat) (e : Option String)
    (ts : Option Nat) (hdb : hwm_inv db) (hok : status = "success" ∨ ts = none) :
    hwm_inv (update_checkpoint db s status r d e ts) := by
  intro cp hcp hts
  unfold update_checkpoint at hcp
  by_cases h : db.checkpoints.any (fun c => c.source_name = s)
  · simp only [h, if_true] at hcp
    obtain ⟨c, hc, heq⟩ := List.mem_map.mp hcp
    by_cases hcs : c.source_name = s
    · rw [hcs, if_pos rfl] at heq
      rcases hok with h1 | h1
      · rw [← heq]
        simpa [setCp] using h1
      · rw [← heq, setCp] at hts
        simp [h1] at hts
    · rw [if_neg hcs] at heq
      rw [← heq] at hts ⊢
      exact hdb c hc hts
  · rw [Bool.not_eq_true] at h
    simp only [h, Bool.false_eq_true, if_false] at hcp
    rcases List.mem_append.mp hcp with hmem | hmem
    · exact hdb cp hmem hts
    · have hcpeq : cp = ⟨s, ts, status, r, d, e⟩ := by simpa using hmem
      rcases hok with h1 | h1
      · rw [hcpeq]
        exact h1
      · rw [hcpeq] at hts
        simp [h1] at hts

/-! ### Lemmas about the transform-and-filter loop -/

theorem bumpMax_mono (mx ts : Option Nat) (m : Nat) (hm : mx = some m) :
    ∃ m', bumpMax mx ts = some m' ∧ m ≤ m' := by
  subst hm
  cases ts with
  | none => exact ⟨m, rfl, le_refl m⟩
  | some t =>
    unfold bumpMax
    by_cases h : t > m
    · exact ⟨t, by simp [h], le_of_lt h⟩
    · exact ⟨m, by simp [h], le_refl m⟩

/-- A loop step that does not abort can only raise the running maximum
timestamp. -/
theorem stepRecord_max_mono (chaos : Bool) (total : Nat) (li : Option Nat)
    (st st' : LoopState) (r : Except String UnifiedDataCreate)
    (h : stepRecord chaos total li st r = Except.ok st') (m : Nat)
    (hm : st.max_ts = some m) : ∃ m', st'.max_ts = some m' ∧ m ≤ m' := by
  unfold stepRecord at h
  cases r with
  | error e =>
    by_cases hc : str_contains e "CHAOS" = true
    · simp [hc] at h
    · rw [Bool.not_eq_true] at hc
      simp only [hc, Bool.false_eq_true, if_false, Except.ok.injEq] at h
      exact ⟨m, h ▸ hm, le_refl m⟩
  | ok u =>
    by_cases hf : isFiltered li u.timestamp = true
    · simp only [hf, if_true, Except.ok.injEq] at h
      exact ⟨m, h ▸ hm, le_refl m⟩
    · rw [Bool.not_eq_true] at hf
      simp only [hf, Bool.false_eq_true, if_false] at h
      by_cases hch : chaos ∧ 2 * (st.processed_count + 1) > total
      · simp [hch] at h
      · rw [if_neg hch, Except.ok.injEq] at h
        obtain ⟨m', hb, hle⟩ := bumpMax_mono st.max_ts u.timestamp m hm
        exact ⟨m', by rw [← h]; exact hb, hle⟩

/-- Across a whole non-aborting loop, the running maximum timestamp never
decreases. -/
theorem runLoop_max_mono (chaos : Bool) (total : Nat) (li : Option Nat) :
    ∀ (recs : List (Except String UnifiedDataCreate)) (st st' : LoopState),
      runLoop chaos total li st recs = Except.ok st' →
      ∀ m, st.max_ts = some m → ∃ m', st'.max_ts = some m' ∧ m ≤ m'
  | [], st, st', h, m, hm => by
    unfold runLoop at h
    rw [Except.ok.injEq] at h
    exact ⟨m, h ▸ hm, le_refl m⟩
  | r :: rs, st, st', h, m, hm => by
    unfold runLoop at h
    rcases hs : stepRecord chaos total li st r with e | st₁
    · rw [hs] at h
      exact absurd h (by simp)
    · rw [hs] at h
      obtain ⟨m₁, hm₁, hle₁⟩ := stepRecord_max_mono chaos total li st st₁ r hs m hm
      obtain ⟨m', hm', hle'⟩ := runLoop_max_mono chaos total li rs st₁ st' h m₁ hm₁
      exact ⟨m', hm', le_trans hle₁ hle'⟩

/-! ### Lemmas about whole runs -/

/-- The failure checkpoint written at the end of a failed run: status
`"failure"`, zero records, no high-water-mark, the captured error. -/
theorem failPath_row (db : DbState) (cfg : RunConfig) (e : String) (cp : EtlCheckpoint)
    (h : get_checkpoint (failPath db cfg e).checkpoints cfg.source_name = some cp) :
    cp.last_status = "failure" ∧ cp.records_processed = 0 ∧
      cp.last_ingested_timestamp = none ∧ cp.error_log = some e := by
  unfold failPath at h
  rw [get_checkpoint_update, Option.some.injEq] at h
  rcases h0 : get_checkpoint db.checkpoints cfg.source_name with _ | cp₀ <;>
    rw [h0] at h <;> subst h <;> simp [setCp]

theorem failPath_unified (db : DbState) (cfg : RunConfig) (e : String) :
    (failPath db cfg e).unified = db.unified := by
  unfold failPath
  exact update_checkpoint_unified db cfg.source_name "failure" 0 cfg.duration_ms (some e) none

theorem hwm_inv_failPath (db : DbState) (cfg : RunConfig) (e : String) (hdb : hwm_inv db) :
    hwm_inv (failPath db cfg e) := by
  unfold failPath
  exact hwm_inv_update db _ _ _ _ _ _ hdb (Or.inr rfl)

/-- The success checkpoint written at the end of a successful run. -/
theorem success_row (db : DbState) (s : String) (n d : Nat) (ts : Option Nat)
    (cp : EtlCheckpoint)
    (h : get_checkpoint (update_checkpoint db s "success" n d none ts).checkpoints s = some cp) :
    cp.last_status = "success" ∧ cp.records_processed = n ∧
      cp.last_ingested_timestamp = ts := by
  rw [get_checkpoint_update, Option.some.injEq] at h
  rcases h0 : get_checkpoint db.checkpoints s with _ | cp₀ <;>
    rw [h0] at h <;> subst h <;> simp [setCp]

/-- A run whose loop finishes and whose two commits both succeed: the
retained records are loaded and the checkpoint records success with
their count and the loop's final running-maximum timestamp. -/
theorem process_source_success (cfg : RunConfig) (db : DbState)
    (recs : List (Except String UnifiedDataCreate)) (st : LoopState)
    (hloop : runLoop cfg.chaos_mode recs.length (read_last_ingested db cfg.source_name)
        ⟨[], 0, read_last_ingested db cfg.source_name⟩ recs = Except.ok st)
    (hc1 : cfg.commit1_fails = false) (hc2 : cfg.commit2_fails = false) :
    (process_source cfg (Except.ok recs) db).unified = loadAll db.unified st.new_records ∧
      ∃ cp, get_checkpoint (process_source cfg (Except.ok recs) db).checkpoints
          cfg.source_name = some cp ∧
        cp.last_status = "success" ∧ cp.records_processed = st.new_records.length ∧
        cp.last_ingested_timestamp = st.max_ts := by
  unfold process_source
  dsimp only
  rw [hloop]
  simp only [hc1, hc2, Bool.false_eq_true, if_false]
  refine ⟨update_checkpoint_unified _ _ _ _ _ _ _, ?_⟩
  rw [get_checkpoint_update]
  rcases h0 : get_checkpoint
      (DbState.mk (loadAll db.unified st.new_records) db.checkpoints).checkpoints
      cfg.source_name with _ | cp₀
  · exact ⟨_, rfl, rfl, rfl, rfl⟩
  · exact ⟨_, rfl, rfl, rfl, rfl⟩

/-- Every run preserves the reachable-checkpoint invariant: the pipeline
never writes a high-water-mark together with a failure status. -/
theorem hwm_inv_process (cfg : RunConfig)
    (fetched : Except String (List (Except String UnifiedDataCreate)))
    (db : DbState) (hdb : hwm_inv db) : hwm_inv (process_source cfg fetched db) := by
  unfold process_source
  dsimp only
  cases fetched with
  | error e => exact hwm_inv_failPath db cfg e hdb
  | ok recs =>
    dsimp only
    split
    · exact hwm_inv_failPath db cfg _ hdb
    · split
      · exact hwm_inv_failPath db cfg _ hdb
      · split
        · exact hwm_inv_failPath (DbState.mk (loadAll db.unified _) db.checkpoints) cfg _ hdb
        · exact hwm_inv_update (DbState.mk (loadAll db.unified _) db.checkpoints)
            _ _ _ _ _ _ hdb (Or.inl rfl)

/-! ### Per-record step lemmas -/

/-- A record at or below the high-water-mark leaves the loop state
untouched. -/
theorem stepRecord_filtered (chaos : Bool) (total : Nat) (li : Option Nat) (st : LoopState)
    (u : UnifiedDataCreate) (hf : isFiltered li u.timestamp = true) :
    stepRecord chaos total li st (Except.ok u) = Except.ok st := by
  unfold stepRecord
  dsimp only
  rw [hf]
  simp

/-- A normalization error whose message does not contain `"CHAOS"` is
skipped: the loop state is untouched and the loop continues. -/
theorem stepRecord_skip_error (chaos : Bool) (total : Nat) (li : Option Nat) (st : LoopState)
    (e : String) (he : str_contains e "CHAOS" = false) :
    stepRecord chaos total li st (Except.error e) = Except.ok st := by
  unfold stepRecord
  dsimp only
  rw [he]
  simp

/-- With fault injection off, an unfiltered record is accepted: appended,
counted, and folded into the running maximum. -/
theorem stepRecord_accept (total : Nat) (li : Option Nat) (st : LoopState)
    (u : UnifiedDataCreate) (hf : isFiltered li u.timestamp = false) :
    stepRecord false total li st (Except.ok u) =
      Except.ok ⟨st.new_records ++ [u], st.processed_count + 1,
        bumpMax st.max_ts u.timestamp⟩ := by
  unfold stepRecord
  dsimp only
  rw [hf]
  simp

/-- A batch in which every record normalizes to a timestamp at or below
the high-water-mark is skipped entirely. -/
theorem runLoop_all_skipped (chaos : Bool) (total t : Nat) :
    ∀ (recs : List (Except String UnifiedDataCreate)) (st : LoopState),
      (∀ r ∈ recs, ∃ u ts, r = Except.ok u ∧ u.timestamp = some ts ∧ ts ≤ t) →
      runLoop chaos total (some t) st recs = Except.ok st
  | [], st, _ => rfl
  | r :: rs, st, hall => by
    obtain ⟨u, ts, rfl, hts, hle⟩ := hall r (List.mem_cons_self r rs)
    have hf : isFiltered (some t) u.timestamp = true := by
      rw [hts]
      exact decide_eq_true hle
    unfold runLoop
    rw [stepRecord_filtered chaos total (some t) st u hf]
    exact runLoop_all_skipped chaos total t rs st
      (fun r hr => hall r (List.mem_cons_of_mem _ hr))

/-- With fault injection off, the loop can only abort through a
normalization error whose message contains `"CHAOS"`; absent those, it
always completes. -/
theorem runLoop_no_chaos (total : Nat) (li : Option Nat) :
    ∀ (recs : List (Except String UnifiedDataCreate)) (st : LoopState),
      (∀ e, Except.error e ∈ recs → str_contains e "CHAOS" = false) →
      ∃ st', runLoop false total li st recs = Except.ok st'
  | [], st, _ => ⟨st, rfl⟩
  | r :: rs, st, herr => by
    unfold runLoop
    cases r with
    | error e =>
      rw [stepRecord_skip_error false total li st e (herr e (List.mem_cons_self _ _))]
      exact runLoop_no_chaos total li rs st
        (fun e' he' => herr e' (List.mem_cons_of_mem _ he'))
    | ok u =>
      by_cases hf : isFiltered li u.timestamp = true
      · rw [stepRecord_filtered false total li st u hf]
        exact runLoop_no_chaos total li rs st
          (fun e' he' => herr e' (List.mem_cons_of_mem _ he'))
      · rw [Bool.not_eq_true] at hf
        rw [stepRecord_accept total li st u hf]
        exact runLoop_no_chaos total li rs _
          (fun e' he' => herr e' (List.mem_cons_of_mem _ he'))

/-! ### Claim C1 — checkpoint after a failed run -/

/-- C1 (amended): the checkpoint update at the end of every failed run
CLEARS the stored high-water-mark: whenever the checkpoint visible after
a run records status `"failure"`, its `last_ingested_timestamp` is
`none`.  The previous successful run's resume point is overwritten, not
preserved — `update_checkpoint` assigns the omitted `last_ts` argument
(`None`) unconditionally (pipeline.py line 51). -/
theorem C1_thm (cfg : RunConfig)
    (fetched : Except String (List (Except String UnifiedDataCreate)))
    (db : DbState) (cp : EtlCheckpoint)
    (hres : get_checkpoint (process_source cfg fetched db).checkpoints
        cfg.source_name = some cp)
    (hfail : cp.last_status = "failure") :
    cp.last_ingested_timestamp = none := by
  unfold process_source at hres
  dsimp only at hres
  cases fetched with
  | error e => exact (failPath_row db cfg e cp hres).2.2.1
  | ok recs =>
    dsimp only at hres
    split at hres
    · exact (failPath_row db cfg _ cp hres).2.2.1
    · split at hres
      · exact (failPath_row db cfg _ cp hres).2.2.1
      · split at hres
        · exact (failPath_row _ cfg _ cp hres).2.2.1
        · have hsucc := (success_row _ _ _ _ _ cp hres).1
          rw [hfail] at hsucc
          simp at hsucc

/-- C1 witness: a fetch failure on a fresh source leaves a failure
checkpoint whose high-water-mark is `none`. -/
theorem C1_witness :
    (⟨"s", none, "failure", 0, 7, some "x"⟩ : EtlCheckpoint).last_ingested_timestamp = none :=
  C1_thm ⟨"s", false, 7, false, false⟩ (Except.error "x") (DbState.mk [] [])
    ⟨"s", none, "failure", 0, 7, some "x"⟩ (by decide) (by decide)

/-- C1 counterexample to the claim as stated: a source whose checkpoint
stores high-water-mark 5 from a successful run undergoes a failed run
(fetch exhaustion); afterwards the stored high-water-mark is `none`, not
the untouched 5 the claim requires. -/
theorem C1_counterexample :
    get_checkpoint
        (DbState.mk [] [⟨"mock_api", some 5, "success", 3, 10, none⟩]).checkpoints
        "mock_api" = some ⟨"mock_api", some 5, "success", 3, 10, none⟩ ∧
    get_checkpoint
        (process_source ⟨"mock_api", false, 7, false, false⟩ (Except.error "retry exhausted")
          (DbState.mk [] [⟨"mock_api", some 5, "success", 3, 10, none⟩])).checkpoints
        "mock_api" = some ⟨"mock_api", none, "failure", 0, 7, some "retry exhausted"⟩ := by
  decide

/-! ### Claim C2 — multi-source unification -/

/-- C2: merging two sources' records for the same (entity_key,
timestamp) pair with values 100.0 and 200.0 into an empty store yields a
single unified row whose aggregate value is the arithmetic mean 150.0
and whose per-source map holds both sources' entries.  (The merge is
modelled from spec §4.4; see `merge_record`.) -/
theorem C2_thm :
    merge_all []
        [⟨"BTC", 100, none, none, "source_a", 50⟩, ⟨"BTC", 200, none, none, "source_b", 50⟩] =
      [⟨"BTC", 50, 150, none, none,
        [("source_a", ⟨100, none, none⟩), ("source_b", ⟨200, none, none⟩)]⟩] := by
  simp +decide [merge_all, merge_record, upsertSourceEntry, mapMean]
  norm_num

/-! ### Claim C3 — the two commits are separate -/

/-- C3 counterexample to atomicity as claimed: with a persistence error
striking at the checkpoint commit (after the data commit succeeded), the
run's entity row is durably committed while the run's checkpoint update
is absent — the checkpoint records failure with zero records instead. -/
theorem C3_counterexample :
    (process_source ⟨"s", false, 7, false, true⟩
        (Except.ok [Except.ok (mkRec "id9" 4)]) (DbState.mk [] [])).unified =
      [mkRec "id9" 4] ∧
    get_checkpoint (process_source ⟨"s", false, 7, false, true⟩
        (Except.ok [Except.ok (mkRec "id9" 4)]) (DbState.mk [] [])).checkpoints "s" =
      some ⟨"s", none, "failure", 0, 7, some "persistence error at checkpoint commit"⟩ := by
  decide

/-- C3 (amended): the entity upserts and the checkpoint update are
committed in two separate consecutive transactions (pipeline.py lines
232 and 239), not atomically.  A persistence error at or before the data
commit rolls both back; a persistence error at the checkpoint commit
leaves the entity rows committed while the checkpoint records failure;
only when both commits succeed do both take effect. -/
theorem C3_thm (cfg : RunConfig) (db : DbState)
    (recs : List (Except String UnifiedDataCreate)) (st : LoopState)
    (hloop : runLoop cfg.chaos_mode recs.length (read_last_ingested db cfg.source_name)
        ⟨[], 0, read_last_ingested db cfg.source_name⟩ recs = Except.ok st) :
    (cfg.commit1_fails = true →
      (process_source cfg (Except.ok recs) db).unified = db.unified ∧
      ∃ cp, get_checkpoint (process_source cfg (Except.ok recs) db).checkpoints
          cfg.source_name = some cp ∧
        cp.last_status = "failure" ∧ cp.records_processed = 0) ∧
    (cfg.commit1_fails = false → cfg.commit2_fails = true →
      (process_source cfg (Except.ok recs) db).unified = loadAll db.unified st.new_records ∧
      ∃ cp, get_checkpoint (process_source cfg (Except.ok recs) db).checkpoints
          cfg.source_name = some cp ∧
        cp.last_status = "failure" ∧ cp.records_processed = 0) ∧
    (cfg.commit1_fails = false → cfg.commit2_fails = false →
      (process_source cfg (Except.ok recs) db).unified = loadAll db.unified st.new_records ∧
      ∃ cp, get_checkpoint (process_source cfg (Except.ok recs) db).checkpoints
          cfg.source_name = some cp ∧
        cp.last_status = "success" ∧ cp.records_processed = st.new_records.length) := by
  refine ⟨?_, ?_, ?_⟩
  · intro h1
    unfold process_source
    dsimp only
    rw [hloop]
    simp only [h1, if_true]
    have hcp := get_checkpoint_update db cfg.source_name "failure" 0 cfg.duration_ms
      (some "persistence error at data commit") none
    exact ⟨failPath_unified db cfg _, _, hcp,
      (failPath_row db cfg _ _ hcp).1, (failPath_row db cfg _ _ hcp).2.1⟩
  · intro h1 h2
    unfold process_source
    dsimp only
    rw [hloop]
    simp only [h1, Bool.false_eq_true, if_false, h2, if_true]
    have hcp := get_checkpoint_update
      (DbState.mk (loadAll db.unified st.new_records) db.checkpoints)
      cfg.source_name "failure" 0 cfg.duration_ms
      (some "persistence error at checkpoint commit") none
    exact ⟨failPath_unified (DbState.mk (loadAll db.unified st.new_records) db.checkpoints)
      cfg _, _, hcp, (failPath_row _ cfg _ _ hcp).1, (failPath_row _ cfg _ _ hcp).2.1⟩
  · intro h1 h2
    obtain ⟨hu, cp, hcp, hs, hr, _⟩ := process_source_success cfg db recs st hloop h1 h2
    exact ⟨hu, cp, hcp, hs, hr⟩

/-- C3 witness: the checkpoint-commit-fault case of `C3_thm` at a
concrete one-record run. -/
theorem C3_witness :
    (process_source ⟨"s", false, 7, false, true⟩
        (Except.ok [Except.ok (mkRec "id9" 4)]) (DbState.mk [] [])).unified
      = loadAll [] [mkRec "id9" 4] ∧
    ∃ cp, get_checkpoint (process_source ⟨"s", false, 7, false, true⟩
        (Except.ok [Except.ok (mkRec "id9" 4)]) (DbState.mk [] [])).checkpoints "s" = some cp ∧
      cp.last_status = "failure" ∧ cp.records_processed = 0 :=
  (C3_thm ⟨"s", false, 7, false, true⟩ (DbState.mk [] []) [Except.ok (mkRec "id9" 4)]
    ⟨[mkRec "id9" 4], 1, some 4⟩ (by rfl)).2.1 rfl rfl

/-! ### Claim C4 — inclusive high-water-mark filtering -/

/-- C4: for a source whose checkpoint (in a reachable store) holds a
stored high-water-mark `t`, the run reads `t` as its incremental bound,
and every record with normalized timestamp `ts ≤ t` — the boundary
`ts = t` included — leaves the loop state exactly unchanged: not
retained for merging, not counted, and not advancing the new
high-water-mark. -/
theorem C4_thm (db : DbState) (cfg : RunConfig) (cp : EtlCheckpoint) (t ts : Nat)
    (u : UnifiedDataCreate) (st : LoopState) (chaos : Bool) (total : Nat)
    (hinv : hwm_inv db)
    (hcp : get_checkpoint db.checkpoints cfg.source_name = some cp)
    (hhwm : cp.last_ingested_timestamp = some t)
    (hts : u.timestamp = some ts) (hle : ts ≤ t) :
    read_last_ingested db cfg.source_name = some t ∧
    stepRecord chaos total (some t) st (Except.ok u) = Except.ok st := by
  have hmem : cp ∈ db.checkpoints := by
    unfold get_checkpoint at hcp
    exact List.mem_of_find?_eq_some hcp
  have hsucc : cp.last_status = "success" := hinv cp hmem (by rw [hhwm]; exact Option.some_ne_none t)
  constructor
  · unfold read_last_ingested
    rw [hcp]
    dsimp only
    rw [if_pos hsucc]
    exact hhwm
  · refine stepRecord_filtered chaos total (some t) st u ?_
    rw [hts]
    exact decide_eq_true hle

/-- C4 witness: a record with timestamp exactly equal to the stored
high-water-mark 5 is excluded and changes nothing. -/
theorem C4_witness :
    read_last_ingested (DbState.mk [] [⟨"s", some 5, "success", 1, 7, none⟩]) "s" = some 5 ∧
    stepRecord false 3 (some 5) ⟨[], 0, some 5⟩ (Except.ok (mkRec "a" 5)) =
      Except.ok ⟨[], 0, some 5⟩ :=
  C4_thm (DbState.mk [] [⟨"s", some 5, "success", 1, 7, none⟩]) ⟨"s", false, 7, false, false⟩
    ⟨"s", some 5, "success", 1, 7, none⟩ 5 5 (mkRec "a" 5) ⟨[], 0, some 5⟩ false 3
    (by unfold hwm_inv; decide) (by decide) (by decide) (by decide) (by decide)

/-! ### Claim C5 — high-water-mark monotonicity -/

/-- C5 counterexample to monotonicity across successful runs with a
failed run in between: run 1 succeeds recording high-water-mark 2; run 2
fails (clearing the mark and the success status); run 3 succeeds on
older upstream data and records high-water-mark 1 < 2. -/
theorem C5_counterexample :
    get_checkpoint (process_source ⟨"s", false, 7, false, false⟩
        (Except.ok [Except.ok (mkRec "a" 2)]) (DbState.mk [] [])).checkpoints "s" =
      some ⟨"s", some 2, "success", 1, 7, none⟩ ∧
    get_checkpoint (process_source ⟨"s", false, 7, false, false⟩
        (Except.ok [Except.ok (mkRec "b" 1)])
        (process_source ⟨"s", false, 7, false, false⟩ (Except.error "boom")
          (process_source ⟨"s", false, 7, false, false⟩
            (Except.ok [Except.ok (mkRec "a" 2)]) (DbState.mk [] [])))).checkpoints "s" =
      some ⟨"s", some 1, "success", 1, 7, none⟩ ∧
    ¬ ((2 : Nat) ≤ 1) := by
  decide

/-- C5 (amended): the high-water-mark is non-decreasing across
consecutive successful runs: when a run starts from a checkpoint it can
read a high-water-mark `t` from (last status success) and itself ends in
success, the recorded mark is some `t' ≥ t`.  A failed run in between
voids this, because it clears the mark (see C1). -/
theorem C5_thm (cfg : RunConfig)
    (fetched : Except String (List (Except String UnifiedDataCreate)))
    (db : DbState) (t : Nat) (cp : EtlCheckpoint)
    (hread : read_last_ingested db cfg.source_name = some t)
    (hres : get_checkpoint (process_source cfg fetched db).checkpoints
        cfg.source_name = some cp)
    (hsucc : cp.last_status = "success") :
    ∃ t', cp.last_ingested_timestamp = some t' ∧ t ≤ t' := by
  unfold process_source at hres
  dsimp only at hres
  cases fetched with
  | error e =>
    have hf := (failPath_row db cfg e cp hres).1
    rw [hsucc] at hf
    simp at hf
  | ok recs =>
    dsimp only at hres
    rcases hloop : runLoop cfg.chaos_mode recs.length (read_last_ingested db cfg.source_name)
        ⟨[], 0, read_last_ingested db cfg.source_name⟩ recs with e | st <;> rw [hloop] at hres
    · dsimp only at hres
      have hf := (failPath_row db cfg e cp hres).1
      rw [hsucc] at hf
      simp at hf
    · dsimp only at hres
      by_cases h1 : cfg.commit1_fails
      · simp only [h1, if_true] at hres
        have hf := (failPath_row db cfg _ cp hres).1
        rw [hsucc] at hf
        simp at hf
      · simp only [h1, Bool.false_eq_true, if_false] at hres
        by_cases h2 : cfg.commit2_fails
        · simp only [h2, if_true] at hres
          have hf := (failPath_row _ cfg _ cp hres).1
          rw [hsucc] at hf
          simp at hf
        · simp only [h2, Bool.false_eq_true, if_false] at hres
          have hrow := success_row _ _ _ _ _ cp hres
          obtain ⟨m', hm', hle⟩ := runLoop_max_mono cfg.chaos_mode recs.length
            (read_last_ingested db cfg.source_name) recs
            ⟨[], 0, read_last_ingested db cfg.source_name⟩ st hloop t hread
          exact ⟨m', by rw [hrow.2.2, hm'], hle⟩

/-- C5 witness: a successful run from stored mark 5 ingesting a record
at 9 records a mark ≥ 5. -/
theorem C5_witness :
    ∃ t', (⟨"s", some 9, "success", 1, 7, none⟩ : EtlCheckpoint).last_ingested_timestamp
        = some t' ∧ 5 ≤ t' :=
  C5_thm ⟨"s", false, 7, false, false⟩ (Except.ok [Except.ok (mkRec "a" 9)])
    (DbState.mk [] [⟨"s", some 5, "success", 1, 7, none⟩]) 5
    ⟨"s", some 9, "success", 1, 7, none⟩ (by decide) (by decide) (by decide)

/-! ### Claim C6 — re-run with no new data -/

/-- C6 (amended): a run in which every fetched record normalizes to a
timestamp at or below the stored high-water-mark is an idempotent no-op:
records_processed = 0, status success, store and high-water-mark
unchanged.  This covers sources whose normalizer takes the timestamp
from the upstream record; the local_csv source does not (see the
counterexample). -/
theorem C6_thm (cfg : RunConfig) (db : DbState) (t : Nat)
    (recs : List (Except String UnifiedDataCreate))
    (hread : read_last_ingested db cfg.source_name = some t)
    (hall : ∀ r ∈ recs, ∃ u ts, r = Except.ok u ∧ u.timestamp = some ts ∧ ts ≤ t)
    (hc1 : cfg.commit1_fails = false) (hc2 : cfg.commit2_fails = false) :
    (process_source cfg (Except.ok recs) db).unified = db.unified ∧
    ∃ cp, get_checkpoint (process_source cfg (Except.ok recs) db).checkpoints
        cfg.source_name = some cp ∧
      cp.last_status = "success" ∧ cp.records_processed = 0 ∧
      cp.last_ingested_timestamp = some t := by
  have hloop : runLoop cfg.chaos_mode recs.length (read_last_ingested db cfg.source_name)
      ⟨[], 0, read_last_ingested db cfg.source_name⟩ recs =
      Except.ok ⟨[], 0, read_last_ingested db cfg.source_name⟩ := by
    rw [hread]
    exact runLoop_all_skipped cfg.chaos_mode recs.length t recs ⟨[], 0, some t⟩ hall
  obtain ⟨hu, cp, hcp, hs, hr, hts⟩ := process_source_success cfg db recs _ hloop hc1 hc2
  refine ⟨?_, cp, hcp, hs, ?_, ?_⟩
  · rw [hu]
    rfl
  · simpa using hr
  · rw [hts]
    exact hread

/-- C6 witness: re-offering only a record at the stored boundary 5 is a
no-op success. -/
theorem C6_witness :
    (process_source ⟨"s", false, 7, false, false⟩ (Except.ok [Except.ok (mkRec "a" 5)])
        (DbState.mk [] [⟨"s", some 5, "success", 1, 7, none⟩])).unified = [] ∧
    ∃ cp, get_checkpoint (process_source ⟨"s", false, 7, false, false⟩
        (Except.ok [Except.ok (mkRec "a" 5)])
        (DbState.mk [] [⟨"s", some 5, "success", 1, 7, none⟩])).checkpoints "s" = some cp ∧
      cp.last_status = "success" ∧ cp.records_processed = 0 ∧
      cp.last_ingested_timestamp = some 5 :=
  C6_thm ⟨"s", false, 7, false, false⟩ (DbState.mk [] [⟨"s", some 5, "success", 1, 7, none⟩])
    5 [Except.ok (mkRec "a" 5)] (by decide)
    (by intro r hr; refine ⟨mkRec "a" 5, 5, ?_, rfl, le_refl 5⟩; simpa using hr)
    (by decide) (by decide)

/-- C6 counterexample for the claim over every configured source: the
local_csv normalizer stamps each row with the current wall-clock time
(pipeline.py line 141), so re-running with the identical upstream row
yields records_processed = 1, not 0. -/
theorem C6_counterexample :
    get_checkpoint (process_source ⟨"local_csv", false, 7, false, false⟩
        (Except.ok [normalize_csv_record 10 ⟨some "r1", some "BTC", some "100", some "crypto"⟩])
        (DbState.mk [] [])).checkpoints "local_csv" =
      some ⟨"local_csv", some 10, "success", 1, 7, none⟩ ∧
    get_checkpoint (process_source ⟨"local_csv", false, 7, false, false⟩
        (Except.ok [normalize_csv_record 20 ⟨some "r1", some "BTC", some "100", some "crypto"⟩])
        (process_source ⟨"local_csv", false, 7, false, false⟩
          (Except.ok [normalize_csv_record 10 ⟨some "r1", some "BTC", some "100", some "crypto"⟩])
          (DbState.mk [] []))).checkpoints "local_csv" =
      some ⟨"local_csv", some 20, "success", 1, 7, none⟩ ∧
    ¬ ((1 : Nat) = 0) := by
  decide

/-! ### Claim C7 — chaos abort and recovery -/

/-- C7: with fault injection on and 5 valid candidates, the loop
survives the first 2 accepted records and aborts once more than half are
accepted; the run ends with a failure checkpoint (0 records, error text
the injected chaos message, which contains "CHAOS") and zero entity rows
committed; re-running the same source with fault injection off ends in
success with records_processed = 5 > 0. -/
theorem C7_thm :
    runLoop true chaosBatch.length none ⟨[], 0, none⟩ (chaosBatch.take 2) =
      Except.ok ⟨[mkRec "c1" 1, mkRec "c2" 2], 2, some 2⟩ ∧
    runLoop true chaosBatch.length none ⟨[], 0, none⟩ chaosBatch = Except.error chaosMsg ∧
    str_contains chaosMsg "CHAOS" = true ∧
    (process_source ⟨"chaos_source", true, 7, false, false⟩ (Except.ok chaosBatch)
        (DbState.mk [] [])).unified = [] ∧
    get_checkpoint (process_source ⟨"chaos_source", true, 7, false, false⟩
        (Except.ok chaosBatch) (DbState.mk [] [])).checkpoints "chaos_source" =
      some ⟨"chaos_source", none, "failure", 0, 7, some chaosMsg⟩ ∧
    get_checkpoint (process_source ⟨"chaos_source", false, 7, false, false⟩
        (Except.ok chaosBatch)
        (process_source ⟨"chaos_source", true, 7, false, false⟩ (Except.ok chaosBatch)
          (DbState.mk [] []))).checkpoints "chaos_source" =
      some ⟨"chaos_source", some 5, "success", 5, 7, none⟩ ∧
    0 < 5 :=
  ⟨rfl, rfl, by decide, by decide, by decide, by decide, by decide⟩

/-! ### Claim C8 — per-record validation errors -/

/-- C8 counterexample to "every record's error is caught and the run
continues": a record whose validation error message contains the
substring "CHAOS" is re-raised (pipeline.py line 208) and aborts the
whole run with a failure checkpoint, even though another valid record
was in the batch and fault injection is off. -/
theorem C8_counterexample :
    get_checkpoint (process_source ⟨"s", false, 7, false, false⟩
        (Except.ok [Except.error "ValidationError: CHAOS marker in value",
                    Except.ok (mkRec "good" 1)])
        (DbState.mk [] [])).checkpoints "s" =
      some ⟨"s", none, "failure", 0, 7, some "ValidationError: CHAOS marker in value"⟩ ∧
    (process_source ⟨"s", false, 7, false, false⟩
        (Except.ok [Except.error "ValidationError: CHAOS marker in value",
                    Except.ok (mkRec "good" 1)])
        (DbState.mk [] [])).unified = [] := by
  decide

/-- C8 (amended): a record whose normalization error message does not
contain "CHAOS" is skipped with the loop state untouched and the run
continues; with fault injection off, no "CHAOS"-bearing error messages
and working persistence, the run always ends with a success checkpoint
(in particular when at least one other record is valid). -/
theorem C8_thm (cfg : RunConfig) (db : DbState)
    (recs : List (Except String UnifiedDataCreate))
    (hchaos : cfg.chaos_mode = false)
    (hc1 : cfg.commit1_fails = false) (hc2 : cfg.commit2_fails = false)
    (herr : ∀ e, Except.error e ∈ recs → str_contains e "CHAOS" = false) :
    (∀ (total : Nat) (li : Option Nat) (st : LoopState) (e : String),
        str_contains e "CHAOS" = false →
        stepRecord cfg.chaos_mode total li st (Except.error e) = Except.ok st) ∧
    ∃ cp, get_checkpoint (process_source cfg (Except.ok recs) db).checkpoints
        cfg.source_name = some cp ∧ cp.last_status = "success" := by
  constructor
  · intro total li st e he
    exact stepRecord_skip_error cfg.chaos_mode total li st e he
  · obtain ⟨st, hloop⟩ := runLoop_no_chaos recs.length (read_last_ingested db cfg.source_name)
      recs ⟨[], 0, read_last_ingested db cfg.source_name⟩ herr
    have hloop' : runLoop cfg.chaos_mode recs.length (read_last_ingested db cfg.source_name)
        ⟨[], 0, read_last_ingested db cfg.source_name⟩ recs = Except.ok st := by
      rw [hchaos]
      exact hloop
    obtain ⟨_, cp, hcp, hs, _, _⟩ := process_source_success cfg db recs st hloop' hc1 hc2
    exact ⟨cp, hcp, hs⟩

/-- C8 witness: a batch with one invalid record (missing required field)
and one valid record still ends in a success checkpoint. -/
theorem C8_witness :
    ∃ cp, get_checkpoint (process_source ⟨"s", false, 7, false, false⟩
        (Except.ok [Except.error "missing required field value",
                    Except.ok (mkRec "good" 1)])
        (DbState.mk [] [])).checkpoints "s" = some cp ∧ cp.last_status = "success" :=
  (C8_thm ⟨"s", false, 7, false, false⟩ (DbState.mk [] [])
    [Except.error "missing required field value", Except.ok (mkRec "good" 1)]
    (by decide) (by decide) (by decide)
    (by intro e he; simp at he; rw [he]; decide)).2

/-! ### Claim C9 — what the drift detector actually computes -/

/-- C9 (amended): the drift detector logs its warning exactly when the
raw record's key set contains none of the critical crypto keys
{ticker, symbol, price, price_usd, quotes}; it computes no Jaccard
similarity (and, being a total function of the keys, never raises and
never blocks ingestion). -/
theorem C9_thm (keys : List String) :
    detect_drift keys = true ↔ ∀ k ∈ keys, k ∉ critical_keys := by
  unfold detect_drift
  simp [List.isEmpty_iff, List.filter_eq_nil_iff]

/-- C9 witness: an RSS-shaped payload with no crypto keys triggers the
warning. -/
theorem C9_witness : detect_drift ["published", "title"] = true :=
  (C9_thm ["published", "title"]).mpr (by decide)

/-- C9 counterexample to the Jaccard claim: a payload whose keys equal
the expected schema exactly (Jaccard similarity 1 ≥ 0.9, so the claim
says no warning) still gets the warning from the code, because none of
the hard-coded critical crypto keys occur in it. -/
theorem C9_counterexample :
    detect_drift unified_model_fields = true ∧
    ¬ spec_jaccard_warns unified_model_fields_set unified_model_fields_set := by
  constructor
  · decide
  · have h1 : (unified_model_fields_set ∩ unified_model_fields_set).card = 5 := by decide
    have h2 : (unified_model_fields_set ∪ unified_model_fields_set).card = 5 := by decide
    rw [spec_jaccard_warns, h1, h2]
    norm_num

/-! ### Claim C10 — records without a timestamp -/

/-- C10: a record whose normalized timestamp is absent always passes the
incremental filter — whatever high-water-mark is in force — and is
retained and counted, but leaves the running maximum timestamp exactly
as it was. -/
theorem C10_thm (li : Option Nat) (st : LoopState) (u : UnifiedDataCreate) (total : Nat)
    (hts : u.timestamp = none) :
    stepRecord false total li st (Except.ok u) =
      Except.ok ⟨st.new_records ++ [u], st.processed_count + 1, st.max_ts⟩ := by
  have hf : isFiltered li u.timestamp = false := by
    rw [hts]
    cases li <;> rfl
  rw [stepRecord_accept total li st u hf, hts]
  rfl

/-- C10 witness: a timestampless record is accepted past a stored
high-water-mark of 5 and the running maximum stays 5. -/
theorem C10_witness :
    stepRecord false 3 (some 5) ⟨[], 0, some 5⟩
        (Except.ok ⟨"no-ts", some "n", none, some "v", some "c"⟩) =
      Except.ok ⟨[⟨"no-ts", some "n", none, some "v", some "c"⟩], 1, some 5⟩ :=
  C10_thm (some 5) ⟨[], 0, some 5⟩ ⟨"no-ts", some "n", none, some "v", some "c"⟩ 3 (by rfl)

end Etl
